import Mathlib

/-!
Shallow embedding of the istio `actions` package
(`DefaultIstioPerformer` and its helper functions) together with proofs
about the behaviour of its webhook patching, version resolution and
orchestration logic.

Modelling conventions:
* Go `error` values are modelled by `GoError`, a message string plus a flag
  recording whether the Kubernetes API classifies the error as a
  concurrent-modification conflict (`apierrors.IsConflict`).
* Go functions returning `(T, error)` are modelled as `Except GoError T`;
  functions that can additionally hit a runtime panic (nil-pointer
  dereference, slice bounds) are modelled as `GoResult T`, whose `.panic`
  constructor marks the crash.
* External collaborators (the Kubernetes client, the commander returned by
  the resolver, the chart loader, `istioctl.VersionFromString`,
  `manifest.ExtractIstioOperatorContextFrom`, the proxy-reset runner) are
  passed in as function parameters, exactly as wide as the interfaces the
  source consumes.
* Go nil pointers are modelled with `Option`; fields of the Kubernetes
  objects that the code never reads or writes are collapsed into an opaque
  `rest : String` payload so that frame properties are expressible.
-/

/-- Model of a Go `error` value: its message, plus whether
`k8s.io/apimachinery` classifies it as a concurrent-modification conflict
(`apierrors.IsConflict`). -/
structure GoError where
  msg : String
  conflict : Bool
deriving DecidableEq, Repr

/-- Result of a Go call that can succeed, return an error, or crash with a
runtime panic (nil-pointer dereference, slice bounds out of range). -/
inductive GoResult (α : Type) where
  | ok : α → GoResult α
  | err : GoError → GoResult α
  | panic : String → GoResult α
deriving DecidableEq, Repr

/-- Model of `github.com/pkg/errors.Wrap`: prefixes the message with
`msg ++ ": "` and keeps the underlying error's classification. -/
def wrapErr (e : GoError) (msg : String) : GoError :=
  { msg := msg ++ ": " ++ e.msg, conflict := e.conflict }

/-- Model of `metav1.LabelSelectorRequirement` (key, operator, values).
`reflect.DeepEqual` on this struct is structural equality, matching the
derived decidable equality. -/
structure LabelSelectorRequirement where
  key : String
  operator : String
  values : List String
deriving DecidableEq, Repr

/-- Model of `metav1.LabelSelector`: the match-expression list the code
mutates, plus the match-labels map it leaves untouched. -/
structure LabelSelector where
  matchLabels : List (String × String)
  matchExpressions : List LabelSelectorRequirement
deriving DecidableEq, Repr

/-- Model of one `v1.MutatingWebhook` entry: its name, its
namespace selector (a nil-able pointer in Go, hence `Option`), and an
opaque payload standing for every other field of the entry, which the
code never touches. -/
structure MutatingWebhook where
  name : String
  namespaceSelector : Option LabelSelector
  rest : String
deriving DecidableEq, Repr

/-- Model of `v1.MutatingWebhookConfiguration`: its object name, its
webhook entry list, and an opaque payload for the untouched remainder
(metadata, type meta, ...). -/
structure MutatingWebhookConfiguration where
  name : String
  webhooks : List MutatingWebhook
  rest : String
deriving DecidableEq, Repr

/-- Outcome of the entry loop inside `addNamespaceSelectorIfNotPresent`:
either the (possibly) updated entry list, or a nil-pointer panic on a
matching entry whose `NamespaceSelector` is nil, or no entry matched. -/
inductive MutationOutcome where
  | updated : List MutatingWebhook → MutationOutcome
  | nilSelector : MutationOutcome
  | notFound : MutationOutcome
deriving DecidableEq, Repr

/-- Appends the rule to a selector's match-expression list, as done by
part_000 lines 234-235. -/
def appendRule (sel : LabelSelector) (rule : LabelSelectorRequirement) : LabelSelector :=
  { sel with matchExpressions := sel.matchExpressions ++ [rule] }

/-- Loop body of `addNamespaceSelectorIfNotPresent` (part_000 lines
224-239): scan the entries in order; at the first entry whose name equals
the target, read its `NamespaceSelector.MatchExpressions` (nil selector
panics in Go), append the required rule unless an expression
`reflect.DeepEqual` to it is already present, and stop. -/
def addNSInWebhooks (name : String) (rule : LabelSelectorRequirement) :
    List MutatingWebhook → MutationOutcome
  | [] => .notFound
  | w :: ws =>
    if w.name = name then
      match w.namespaceSelector with
      | none => .nilSelector
      | some sel =>
        if rule ∈ sel.matchExpressions then .updated (w :: ws)
        else .updated ({ w with namespaceSelector := some (appendRule sel rule) } :: ws)
    else
      match addNSInWebhooks name rule ws with
      | .updated ws' => .updated (w :: ws')
      | r => r

/-- Embedding of `addNamespaceSelectorIfNotPresent` (part_000 lines
223-241). Go mutates `whConf` in place and returns only an error; here the
updated configuration is returned explicitly. -/
def addNamespaceSelectorIfNotPresent (whConf : MutatingWebhookConfiguration)
    (webhookNameToChange : String) (requiredLabelSelector : LabelSelectorRequirement) :
    GoResult MutatingWebhookConfiguration :=
  match addNSInWebhooks webhookNameToChange requiredLabelSelector whConf.webhooks with
  | .updated ws => .ok { whConf with webhooks := ws }
  | .nilSelector => .panic "runtime error: invalid memory address or nil pointer dereference"
  | .notFound => .err { msg := "could not find webhook " ++ webhookNameToChange ++
      " in WebhookConfiguration " ++ whConf.name, conflict := false }

/-- Loop of `selectWebhookConfFormCandidates` (part_000 lines 244-251) with
the named return value `err` made an explicit accumulator. When the list is
exhausted the Go code returns `nil, errors.Wrap(err, ...)`; `errors.Wrap`
of a nil error is nil, so with no recorded failure the function returns a
nil configuration together with a nil error, modelled as `.ok none`. -/
def selectLoop (get : String → Except GoError MutatingWebhookConfiguration) :
    List String → Option GoError → Except GoError (Option MutatingWebhookConfiguration)
  | [], none => .ok none
  | [], some e => .error (wrapErr e "MutatingWebhookConfigurations could not be selected from candidates")
  | n :: ns, _ =>
    match get n with
    | .ok c => .ok (some c)
    | .error e => selectLoop get ns (some e)

/-- Embedding of `selectWebhookConfFormCandidates` (part_000 lines
243-252): try each candidate name in order with the client's `Get`,
returning the first success; if every fetch fails, wrap the last failure. -/
def selectWebhookConfFormCandidates
    (get : String → Except GoError MutatingWebhookConfiguration)
    (candidatesNames : List String) : Except GoError (Option MutatingWebhookConfiguration) :=
  selectLoop get candidatesNames none

/-- First candidate name, `istio-revision-tag-default` (part_000 line 188),
then `istio-sidecar-injector` (line 189). -/
def candidatesNames : List String :=
  ["istio-revision-tag-default", "istio-sidecar-injector"]

/-- Target webhook entry name (part_000 line 192). -/
def webhookNameToChange : String := "auto.sidecar-injector.istio.io"

/-- The required namespace-exclusion rule (part_000 lines 194-198). -/
def requiredLabelSelector : LabelSelectorRequirement :=
  { key := "gardener.cloud/purpose", operator := "NotIn", values := ["kube-system"] }

/-- One attempt of the retry callback inside `PatchMutatingWebhook`
(part_000 lines 200-213): select a configuration from the candidates,
mutate it, and submit the full update. `get` models the client's
webhook-configuration `Get`, `update` models `Update` (returning the
server's rejection error, if any). A nil configuration selected from an
empty candidate list would be dereferenced by the mutation step, hence
`.panic`. -/
def patchAttempt (get : String → Except GoError MutatingWebhookConfiguration)
    (update : MutatingWebhookConfiguration → Option GoError) : GoResult Unit :=
  match selectWebhookConfFormCandidates get candidatesNames with
  | .error e => .err e
  | .ok none => .panic "runtime error: invalid memory address or nil pointer dereference"
  | .ok (some whConf) =>
    match addNamespaceSelectorIfNotPresent whConf webhookNameToChange requiredLabelSelector with
    | .err e => .err e
    | .panic m => .panic m
    | .ok whConf' =>
      match update whConf' with
      | some e => .err e
      | none => .ok ()

/-- Number of attempts performed by `k8s.io/client-go/util/retry` with
`retry.DefaultRetry` (its `Steps` field is 5). -/
def defaultRetrySteps : Nat := 5

/-- Model of `retry.RetryOnConflict` from `k8s.io/client-go/util/retry`
(an external library collaborator): run the callback up to the given
number of attempts; stop on success, stop immediately on a non-conflict
error, record and retry on a conflict error, and return the last recorded
conflict error when the attempt budget is exhausted. The callback takes
the attempt index so that each attempt can observe fresh server state. -/
def retryOnConflictAux (fn : Nat → GoResult Unit) (lastErr : Option GoError) :
    Nat → Nat → GoResult Unit
  | _, 0 =>
    match lastErr with
    | some e => .err e
    | none => .ok ()
  | k, s + 1 =>
    match fn k with
    | .ok _ => .ok ()
    | .panic m => .panic m
    | .err e => if e.conflict then retryOnConflictAux fn (some e) (k + 1) s else .err e

/-- Model of `retry.RetryOnConflict(retry.DefaultRetry, fn)`. -/
def retryOnConflict (steps : Nat) (fn : Nat → GoResult Unit) : GoResult Unit :=
  retryOnConflictAux fn none 0 steps

/-- Embedding of `DefaultIstioPerformer.PatchMutatingWebhook` (part_000
lines 182-221): obtain the clientset, then run the
select-mutate-update cycle under the conflict-retry policy. `get` and
`update` are indexed by the attempt number: attempt `k` fetches the
server-side state current at that attempt. -/
def PatchMutatingWebhook (clientset : Except GoError Unit)
    (get : Nat → String → Except GoError MutatingWebhookConfiguration)
    (update : Nat → MutatingWebhookConfiguration → Option GoError) : GoResult Unit :=
  match clientset with
  | .error e => .err e
  | .ok _ => retryOnConflict defaultRetrySteps (fun k => patchAttempt (get k) (update k))

/-- Model of a JSON value, standing for the `map[string]interface{}` helm
values tree that `getTargetVersionFromPilotInChartValues` marshals to JSON
and decodes into the `chartValues` struct. -/
inductive JSONValue where
  | null : JSONValue
  | str : String → JSONValue
  | num : Int → JSONValue
  | bool : Bool → JSONValue
  | arr : List JSONValue → JSONValue
  | obj : List (String × JSONValue) → JSONValue

/-- Key lookup in a JSON object with `encoding/json` duplicate-key
semantics: when a key occurs twice the later occurrence wins. -/
def lookupLast (k : String) : List (String × JSONValue) → Option JSONValue
  | [] => none
  | (k', v) :: rest =>
    match lookupLast k rest with
    | some r => some r
    | none => if k' = k then some v else none

/-- Walk of a nested-struct decode with `encoding/json` semantics, as
performed when unmarshalling into the `chartValues` struct (part_000 lines
70-78): a missing key or JSON null leaves the zero value (empty string at
the leaf), a JSON string at the leaf is taken verbatim, and a value of any
other shape at an intermediate or leaf position is a decode error. Keys
are matched exactly (the case-insensitive fallback of `encoding/json` is
not exercised by the fixed lower-case tags). -/
def extractStringAtPath : List String → JSONValue → Except GoError String
  | [], v =>
    match v with
    | .str s => .ok s
    | .null => .ok ""
    | _ => .error { msg := "json: cannot unmarshal value into Go value of type string", conflict := false }
  | k :: ks, v =>
    match v with
    | .obj fields =>
      match lookupLast k fields with
      | some v' => extractStringAtPath ks v'
      | none => .ok ""
    | .null => .ok ""
    | _ => .error { msg := "json: cannot unmarshal value into Go struct field", conflict := false }

/-- Model of `helmChart.Metadata` as far as the code reads it. -/
structure ChartMetadata where
  appVersion : String
deriving DecidableEq, Repr

/-- Model of a loaded helm chart (`helmChart.Chart`): the metadata field
and the values tree. -/
structure HelmChart where
  metadata : ChartMetadata
  values : JSONValue

/-- Embedding of `getTargetVersionFromAppVersionInChartDefinition`
(part_000 lines 366-368). -/
def getTargetVersionFromAppVersionInChartDefinition (helmChart : HelmChart) : String :=
  helmChart.metadata.appVersion

/-- Embedding of `getTargetVersionFromPilotInChartValues` (part_000 lines
370-383): marshal the values map to JSON and decode it into the
`chartValues` struct, i.e. extract `global.images.istio_pilot.version`
with zero-value defaulting. The marshal step cannot fail on a values tree
of the shapes representable here and is modelled as the identity. -/
def getTargetVersionFromPilotInChartValues (helmChart : HelmChart) : Except GoError String :=
  extractStringAtPath ["global", "images", "istio_pilot", "version"] helmChart.values

/-- Model of a chart workspace (`ws.ResourceDir` is all the code reads). -/
structure Workspace where
  resourceDir : String

/-- Embedding of `getTargetVersionFromIstioChart` (part_000 lines
336-364). `wsGet` models `workspace.Get`, `load` models `loader.Load`;
`filepath.Join` is modelled as separator concatenation (path cleaning is
irrelevant to the resolution logic). The logger only emits debug output
and is dropped. -/
def getTargetVersionFromIstioChart (wsGet : String → Except GoError Workspace)
    (load : String → Except GoError HelmChart)
    (branch : String) (istioChart : String) : Except GoError String :=
  match wsGet branch with
  | .error e => .error e
  | .ok ws =>
    match load (ws.resourceDir ++ "/" ++ istioChart) with
    | .error e => .error e
    | .ok istioHelmChart =>
      match getTargetVersionFromPilotInChartValues istioHelmChart with
      | .error e => .error e
      | .ok pilotVersion =>
        if pilotVersion ≠ "" then .ok pilotVersion
        else
          let appVersion := getTargetVersionFromAppVersionInChartDefinition istioHelmChart
          if appVersion ≠ "" then .ok appVersion
          else .error { msg := "Target Istio version could not be found neither in Chart.yaml nor in helm values", conflict := false }

/-- Model of the `clientVersion` object (part_000 lines 53-55). -/
structure ClientVersion where
  version : String
deriving DecidableEq, Repr

/-- Model of the `Info` object of a mesh component (part_000 lines 62-64). -/
structure MeshInfo where
  version : String
deriving DecidableEq, Repr

/-- Model of one `meshVersion` element (part_000 lines 57-60); its `Info`
field is a nil-able pointer. -/
structure MeshComponent where
  component : String
  info : Option MeshInfo
deriving DecidableEq, Repr

/-- Model of one `dataPlaneVersion` element (part_000 lines 66-68). -/
structure DataPlaneVersion where
  istioVersion : String
deriving DecidableEq, Repr

/-- Model of `IstioVersionOutput` (part_000 lines 47-51). `clientVersion`
is a nil-able pointer; the two lists hold nil-able element pointers
(`[]*MeshComponent`, `[]*DataPlaneVersion`). -/
structure IstioVersionOutput where
  clientVersion : Option ClientVersion
  meshVersion : List (Option MeshComponent)
  dataPlaneVersion : List (Option DataPlaneVersion)
deriving DecidableEq, Repr

/-- Model of `IstioStatus` (part_000 lines 40-45). -/
structure IstioStatus where
  clientVersion : String
  targetVersion : String
  pilotVersion : String
  dataPlaneVersion : String
deriving DecidableEq, Repr

/-- Embedding of `getVersionFromJSON` (part_000 lines 385-402). Go
dereferences `json.ClientVersion`, `json.MeshVersion[0]` and its `Info`
without nil checks; a nil dereference is a runtime panic, modelled by
`none`. A defined result `s` is modelled as `some s`. -/
def getVersionFromJSON (versionType : String) (json : IstioVersionOutput) : Option String :=
  match versionType with
  | "client" =>
    match json.clientVersion with
    | some c => some c.version
    | none => none
  | "pilot" =>
    match json.meshVersion with
    | [] => some ""
    | m :: _ =>
      match m with
      | none => none
      | some mc =>
        match mc.info with
        | none => none
        | some i => some i.version
  | "dataPlane" =>
    match json.dataPlaneVersion with
    | [] => some ""
    | d :: _ =>
      match d with
      | none => none
      | some dp => some dp.istioVersion
  | _ => some ""

/-- Index of the first occurrence of the rune `{` in the byte sequence,
modelling `bytes.IndexRune(versionOutput, 0x7b)`; `none` models Go's -1. -/
def indexOfBrace : List Char → Option Nat
  | [] => none
  | c :: cs =>
    if c = '{' then some 0
    else
      match indexOfBrace cs with
      | some i => some (i + 1)
      | none => none

/-- Embedding of `mapVersionToStruct` (part_000 lines 404-426). The raw
command output is a byte sequence, modelled as a character list;
`unmarshal` models `json.Unmarshal` into `IstioVersionOutput`. When the
output is non-empty and contains no brace, `bytes.IndexRune` yields -1,
the guard `index != 0` holds, and the reslice `versionOutput[-1:]` panics
with a slice-bounds error. A nil-pointer panic inside `getVersionFromJSON`
propagates. -/
def mapVersionToStruct (unmarshal : List Char → GoResult IstioVersionOutput)
    (versionOutput : List Char) (targetVersion : String) : GoResult IstioStatus :=
  if versionOutput.length = 0 then
    .err { msg := "the result of the version command is empty", conflict := false }
  else
    match indexOfBrace versionOutput with
    | none => .panic "runtime error: slice bounds out of range"
    | some index =>
      match unmarshal (versionOutput.drop index) with
      | .err e => .err e
      | .panic m => .panic m
      | .ok version =>
        match getVersionFromJSON "client" version, getVersionFromJSON "pilot" version,
            getVersionFromJSON "dataPlane" version with
        | some cv, some pv, some dv =>
          .ok { clientVersion := cv, targetVersion := targetVersion,
                pilotVersion := pv, dataPlaneVersion := dv }
        | _, _, _ => .panic "runtime error: invalid memory address or nil pointer dereference"

/-- The fixed proxy image prefix `istio/proxyv2` (part_000 line 31). -/
def istioImagePrefix : String := "istio/proxyv2"

/-- The fixed retry count 5 (part_000 line 32). -/
def retriesCount : Nat := 5

/-- The fixed delay between retries, `5 * time.Second`, in seconds
(part_000 line 33). -/
def delayBetweenRetries : Nat := 5

/-- The fixed overall timeout, `5 * time.Minute`, in seconds (part_000
line 34). -/
def timeout : Nat := 300

/-- The fixed poll interval, `12 * time.Second`, in seconds (part_000
line 35). -/
def interval : Nat := 12

/-- Opaque structured version value produced by
`istioctl.VersionFromString` (repository code outside this package's
file; only its success or failure matters here). -/
structure IstioctlVersion where
  raw : String
deriving DecidableEq, Repr

/-- Model of the `istioctl.Commander` interface as far as this file calls
it: the install and uninstall capabilities. (`Upgrade` and `Version` are
used only by operations outside the claims and are omitted.) Each
capability returns the error of the underlying istioctl invocation. -/
structure Commander where
  install : String → String → Option GoError
  uninstall : String → Option GoError

/-- Model of the typed cluster client obtained from
`kubeClientSet.Clientset()`: namespace deletion takes the namespace name
and the propagation policy and returns the server's error, if any. -/
structure Clientset where
  deleteNamespace : String → String → Option GoError

/-- Model of `kubernetes.Client` as far as `Uninstall` uses it:
`Kubeconfig()` and `Clientset()`. -/
structure KubeClient where
  kubeconfig : String
  clientset : Except GoError Clientset

/-- Model of `istioConfig.IstioProxyConfig` (part_000 lines 289-300) as
far as its fields carry data: the context and logger are opaque ambient
values and are omitted; durations are in seconds. -/
structure IstioProxyConfig where
  imagePrefix : String
  imageVersion : String
  retriesCount : Nat
  delayBetweenRetries : Nat
  timeout : Nat
  interval : Nat
  kubeclient : String
  debug : Bool
deriving DecidableEq, Repr

/-- Collaborators of `DefaultIstioPerformer` (part_000 lines 111-115),
widened with the two package-level functions the performer calls:
`versionFromString` models `istioctl.VersionFromString` and
`extractIstioOperator` models `manifest.ExtractIstioOperatorContextFrom`
(both repository code outside this file, treated as opaque collaborators).
`getCommander` models the `CommanderResolver`, `istioProxyResetRun` the
`proxy.IstioProxyReset` runner, and `retrieveFrom` the
`clientset.Provider` (returning an opaque kube-client handle). -/
structure DefaultIstioPerformer where
  versionFromString : String → Except GoError IstioctlVersion
  getCommander : IstioctlVersion → Except GoError Commander
  extractIstioOperator : String → Except GoError String
  istioProxyResetRun : IstioProxyConfig → Option GoError
  retrieveFrom : String → Except GoError String

/-- Embedding of `DefaultIstioPerformer.Uninstall` (part_000 lines
122-154): parse the version (wrapping a parse failure), resolve the
commander, call its uninstall (wrapping a failure), obtain the typed
client, and delete the `istio-system` namespace with foreground
propagation, surfacing the deletion error. -/
def Uninstall (c : DefaultIstioPerformer) (kubeClientSet : KubeClient)
    (version : String) : Except GoError Unit :=
  match c.versionFromString version with
  | .error e => .error (wrapErr e "Error parsing version")
  | .ok execVersion =>
    match c.getCommander execVersion with
    | .error e => .error e
    | .ok commander =>
      match commander.uninstall kubeClientSet.kubeconfig with
      | some e => .error (wrapErr e "Error occurred when calling istioctl")
      | none =>
        match kubeClientSet.clientset with
        | .error e => .error e
        | .ok kubeClient =>
          match kubeClient.deleteNamespace "istio-system" "Foreground" with
          | some e => .error e
          | none => .ok ()

/-- Record of a mutating istioctl invocation performed by `Install`, used
to state that failing early steps attempt no cluster mutation. -/
inductive ClusterAction where
  | istioctlInstall : String → String → ClusterAction
deriving DecidableEq, Repr

/-- Embedding of `DefaultIstioPerformer.Install` (part_000 lines 156-180):
parse the version (wrapping a parse failure), extract the istio-operator
manifest from the chart, resolve the commander, and invoke its install
capability (wrapping a failure). Alongside the result, the list of
mutating istioctl invocations performed is returned. -/
def Install (c : DefaultIstioPerformer) (kubeConfig : String)
    (istioChart : String) (version : String) :
    Except GoError Unit × List ClusterAction :=
  match c.versionFromString version with
  | .error e => (.error (wrapErr e "Error parsing version"), [])
  | .ok execVersion =>
    match c.extractIstioOperator istioChart with
    | .error e => (.error e, [])
    | .ok istioOperatorManifest =>
      match c.getCommander execVersion with
      | .error e => (.error e, [])
      | .ok commander =>
        match commander.install istioOperatorManifest kubeConfig with
        | some e => (.error (wrapErr e "Error occurred when calling istioctl"),
            [.istioctlInstall istioOperatorManifest kubeConfig])
        | none => (.ok (), [.istioctlInstall istioOperatorManifest kubeConfig])

/-- Embedding of `DefaultIstioPerformer.ResetProxy` (part_000 lines
282-308): retrieve the kube client from the kubeconfig, build the
`IstioProxyConfig` with the fixed image prefix, the caller tag suffixed
with `-distroless`, and the fixed defaults, run the proxy reset, and wrap
its error. -/
def ResetProxy (c : DefaultIstioPerformer) (kubeConfig : String)
    (proxyImageVersion : String) : Except GoError Unit :=
  match c.retrieveFrom kubeConfig with
  | .error e => .error e
  | .ok kubeClient =>
    let cfg : IstioProxyConfig :=
      { imagePrefix := istioImagePrefix,
        imageVersion := proxyImageVersion ++ "-distroless",
        retriesCount := retriesCount,
        delayBetweenRetries := delayBetweenRetries,
        timeout := timeout,
        interval := interval,
        kubeclient := kubeClient,
        debug := false }
    match c.istioProxyResetRun cfg with
    | some e => .error (wrapErr e "Istio proxy reset error")
    | none => .ok ()

/-- When the entries before the first name match are all non-matching and
the matching entry carries a selector, the loop either leaves the list
unchanged (rule already present) or appends the rule to exactly that
entry, leaving every other entry untouched. -/
theorem addNSInWebhooks_firstMatch (name : String) (rule : LabelSelectorRequirement)
    (w : MutatingWebhook) (sel : LabelSelector)
    (hw : w.name = name) (hsel : w.namespaceSelector = some sel) :
    ∀ pre post, (∀ u ∈ pre, u.name ≠ name) →
      addNSInWebhooks name rule (pre ++ w :: post) =
        (if rule ∈ sel.matchExpressions then .updated (pre ++ w :: post)
         else .updated (pre ++ ({ w with namespaceSelector := some (appendRule sel rule) } :: post))) := by
  intro pre
  induction pre with
  | nil =>
    intro post _
    by_cases hmem : rule ∈ sel.matchExpressions <;>
      simp [addNSInWebhooks, hw, hsel, hmem]
  | cons u pre' ih =>
    intro post hpre
    have hu : u.name ≠ name := hpre u (by simp)
    have hrest : ∀ v ∈ pre', v.name ≠ name := fun v hv => hpre v (by simp [hv])
    have hih := ih post hrest
    by_cases hmem : rule ∈ sel.matchExpressions
    · rw [if_pos hmem] at hih
      simp [addNSInWebhooks, hu, hih, hmem]
    · rw [if_neg hmem] at hih
      simp [addNSInWebhooks, hu, hih, hmem]

/-- When no entry's name matches, the loop reports `notFound`. -/
theorem addNSInWebhooks_notFound (name : String) (rule : LabelSelectorRequirement) :
    ∀ ws, (∀ u ∈ ws, u.name ≠ name) → addNSInWebhooks name rule ws = .notFound := by
  intro ws
  induction ws with
  | nil => intro _; rfl
  | cons w ws' ih =>
    intro h
    have hw : w.name ≠ name := h w (by simp)
    have hrest : ∀ u ∈ ws', u.name ≠ name := fun u hu => h u (by simp [hu])
    simp [addNSInWebhooks, hw, ih hrest]

/-- A successfully updated entry list is a fixed point of the loop: running
it again returns the same list unchanged. -/
theorem addNSInWebhooks_fixedPoint (name : String) (rule : LabelSelectorRequirement) :
    ∀ ws ws', addNSInWebhooks name rule ws = .updated ws' →
      addNSInWebhooks name rule ws' = .updated ws' := by
  intro ws
  induction ws with
  | nil => intro ws' h; simp [addNSInWebhooks] at h
  | cons w rest ih =>
    intro ws' h
    by_cases hw : w.name = name
    · cases hsel : w.namespaceSelector with
      | none => simp [addNSInWebhooks, hw, hsel] at h
      | some sel =>
        by_cases hmem : rule ∈ sel.matchExpressions
        · simp only [addNSInWebhooks, if_pos hw, hsel, if_pos hmem] at h
          cases h
          simp only [addNSInWebhooks, if_pos hw, hsel, if_pos hmem]
        · simp only [addNSInWebhooks, if_pos hw, hsel, if_neg hmem] at h
          cases h
          have hmem' : rule ∈ sel.matchExpressions ++ [rule] := by simp
          simp [addNSInWebhooks, hw, appendRule, hmem']
    · simp only [addNSInWebhooks, if_neg hw] at h
      cases hrec : addNSInWebhooks name rule rest with
      | updated rs =>
        rw [hrec] at h
        cases h
        simp [addNSInWebhooks, hw, ih rs hrec]
      | nilSelector => rw [hrec] at h; cases h
      | notFound => rw [hrec] at h; cases h

/-- On a non-empty candidate list the loop ignores the accumulated error. -/
theorem selectLoop_cons (get : String → Except GoError MutatingWebhookConfiguration)
    (n : String) (ns : List String) (acc : Option GoError) :
    selectLoop get (n :: ns) acc =
      (match get n with
       | .ok c => .ok (some c)
       | .error e => selectLoop get ns (some e)) := rfl

/-- The first candidate whose fetch succeeds is returned, whatever came
before it failed with and whatever follows it. -/
theorem selectLoop_firstSuccess (get : String → Except GoError MutatingWebhookConfiguration)
    (c : MutatingWebhookConfiguration) :
    ∀ pre n post acc, (∀ m ∈ pre, ∃ e, get m = .error e) → get n = .ok c →
      selectLoop get (pre ++ n :: post) acc = .ok (some c) := by
  intro pre
  induction pre with
  | nil =>
    intro n post acc _ hok
    simp [selectLoop_cons, hok]
  | cons m pre' ih =>
    intro n post acc hpre hok
    obtain ⟨e, he⟩ := hpre m (by simp)
    have hrest : ∀ u ∈ pre', ∃ e', get u = .error e' := fun u hu => hpre u (by simp [hu])
    simp only [List.cons_append, selectLoop_cons, he]
    exact ih n post (some e) hrest hok

/-- When every fetch fails, the loop returns the wrap of the failure of
the last candidate. -/
theorem selectLoop_allFail (get : String → Except GoError MutatingWebhookConfiguration) :
    ∀ pre n e acc, (∀ m ∈ pre, ∃ e', get m = .error e') → get n = .error e →
      selectLoop get (pre ++ [n]) acc =
        .error (wrapErr e "MutatingWebhookConfigurations could not be selected from candidates") := by
  intro pre
  induction pre with
  | nil =>
    intro n e acc _ herr
    simp [selectLoop_cons, herr, selectLoop]
  | cons m pre' ih =>
    intro n e acc hpre herr
    obtain ⟨e', he'⟩ := hpre m (by simp)
    have hrest : ∀ u ∈ pre', ∃ f, get u = .error f := fun u hu => hpre u (by simp [hu])
    simp only [List.cons_append, selectLoop_cons, he']
    exact ih n e (some e') hrest herr

/-- When every attempt within the budget fails with a conflict error, the
retry loop exhausts the budget and returns the last attempt's error. -/
theorem retryAux_allConflict (fn : Nat → GoResult Unit) (e : Nat → GoError) :
    ∀ s k lastErr, 0 < s →
      (∀ i, i < s → fn (k + i) = .err (e (k + i)) ∧ (e (k + i)).conflict = true) →
      retryOnConflictAux fn lastErr k s = .err (e (k + s - 1)) := by
  intro s
  induction s with
  | zero => intro k lastErr h; omega
  | succ s' ih =>
    intro k lastErr _ h
    have h0 := h 0 (by omega)
    simp only [Nat.add_zero] at h0
    cases s' with
    | zero =>
      simp [retryOnConflictAux, h0.1, h0.2]
    | succ t =>
      have hstep : ∀ i, i < t + 1 → fn (k + 1 + i) = .err (e (k + 1 + i)) ∧ (e (k + 1 + i)).conflict = true := by
        intro i hi
        have := h (i + 1) (by omega)
        have harith : k + (i + 1) = k + 1 + i := by omega
        rw [harith] at this
        exact this
      have hrec := ih (k + 1) (some (e k)) (by omega) hstep
      have harith2 : k + 1 + (t + 1) - 1 = k + (t + 1 + 1) - 1 := by omega
      rw [harith2] at hrec
      simp only [retryOnConflictAux, h0.1, h0.2, if_pos]
      exact hrec

/-- A non-conflict error at any attempt within the budget is returned
immediately, regardless of what later attempts would do. -/
theorem retryAux_nonConflict (fn : Nat → GoResult Unit) (f : GoError)
    (hf : f.conflict = false) :
    ∀ j s k lastErr, j < s →
      (∀ i, i < j → ∃ e, fn (k + i) = .err e ∧ e.conflict = true) →
      fn (k + j) = .err f →
      retryOnConflictAux fn lastErr k s = .err f := by
  intro j
  induction j with
  | zero =>
    intro s k lastErr hjs _ hj
    cases s with
    | zero => omega
    | succ s' =>
      simp only [Nat.add_zero] at hj
      simp [retryOnConflictAux, hj, hf]
  | succ j' ih =>
    intro s k lastErr hjs hconf hj
    cases s with
    | zero => omega
    | succ s' =>
      obtain ⟨e0, he0, hc0⟩ := hconf 0 (by omega)
      simp only [Nat.add_zero] at he0
      have hshift : ∀ i, i < j' → ∃ e, fn (k + 1 + i) = .err e ∧ e.conflict = true := by
        intro i hi
        obtain ⟨e, he, hc⟩ := hconf (i + 1) (by omega)
        refine ⟨e, ?_, hc⟩
        have harith : k + (i + 1) = k + 1 + i := by omega
        rw [harith] at he
        exact he
      have hj' : fn (k + 1 + j') = .err f := by
        have harith : k + (j' + 1) = k + 1 + j' := by omega
        rw [harith] at hj
        exact hj
      simp only [retryOnConflictAux, he0, hc0, if_pos]
      exact ih s' (k + 1) (some e0) (by omega) hshift hj'

/-- Sample selector already containing the required exclusion rule. -/
def sampleSelectorWithRule : LabelSelector :=
  { matchLabels := [("istio-injection", "enabled")],
    matchExpressions := [requiredLabelSelector] }

/-- Sample webhook entry with the target name and the rule present. -/
def sampleWebhookWithRule : MutatingWebhook :=
  { name := "auto.sidecar-injector.istio.io",
    namespaceSelector := some sampleSelectorWithRule,
    rest := "entry-payload" }

/-- Sample configuration whose single entry matches the target name and
already carries the required rule. -/
def sampleConfWithRule : MutatingWebhookConfiguration :=
  { name := "istio-sidecar-injector",
    webhooks := [sampleWebhookWithRule],
    rest := "object-meta" }

/-- Sample selector not containing the required exclusion rule. -/
def sampleSelectorEmpty : LabelSelector :=
  { matchLabels := [], matchExpressions := [] }

/-- Sample configuration whose single matching entry has an empty
match-expression list. -/
def sampleConfNoRule : MutatingWebhookConfiguration :=
  { name := "istio-revision-tag-default",
    webhooks := [{ name := "auto.sidecar-injector.istio.io", namespaceSelector := some sampleSelectorEmpty, rest := "p" }],
    rest := "m" }

/-- Sample configuration whose single matching entry has a nil namespace
selector. -/
def sampleConfNilSelector : MutatingWebhookConfiguration :=
  { name := "istio-sidecar-injector",
    webhooks := [{ name := "auto.sidecar-injector.istio.io", namespaceSelector := none, rest := "p" }],
    rest := "m" }

/-- C1: the webhook patch's mutation step is idempotent. If the first
entry matching the target name already carries an expression structurally
equal to the required rule, the step changes nothing and returns no
error; the configuration produced by any successful mutation step is a
fixed point, so a second patch run against it appends nothing (zero
selector-list growth) and returns no error — both at the mutation step
and through the whole `PatchMutatingWebhook` cycle. -/
theorem patchMutation_idempotent :
    (∀ (conf : MutatingWebhookConfiguration) (name : String) (rule : LabelSelectorRequirement)
        (pre post : List MutatingWebhook) (w : MutatingWebhook) (sel : LabelSelector),
        conf.webhooks = pre ++ w :: post →
        (∀ u ∈ pre, u.name ≠ name) →
        w.name = name → w.namespaceSelector = some sel →
        rule ∈ sel.matchExpressions →
        addNamespaceSelectorIfNotPresent conf name rule = .ok conf)
  ∧ (∀ (conf conf' : MutatingWebhookConfiguration) (name : String) (rule : LabelSelectorRequirement),
        addNamespaceSelectorIfNotPresent conf name rule = .ok conf' →
        addNamespaceSelectorIfNotPresent conf' name rule = .ok conf')
  ∧ (∀ (conf' : MutatingWebhookConfiguration) (update : MutatingWebhookConfiguration → Option GoError),
        addNamespaceSelectorIfNotPresent conf' webhookNameToChange requiredLabelSelector = .ok conf' →
        update conf' = none →
        PatchMutatingWebhook (.ok ()) (fun _ _ => .ok conf') (fun _ => update) = .ok ()) := by
  refine ⟨?_, ?_, ?_⟩
  · intro conf name rule pre post w sel hconf hpre hw hsel hmem
    have hloop := addNSInWebhooks_firstMatch name rule w sel hw hsel pre post hpre
    rw [if_pos hmem] at hloop
    rw [← hconf] at hloop
    simp [addNamespaceSelectorIfNotPresent, hloop]
  · intro conf conf' name rule h
    unfold addNamespaceSelectorIfNotPresent at h
    cases hloop : addNSInWebhooks name rule conf.webhooks with
    | updated ws =>
      rw [hloop] at h
      cases h
      have hfix := addNSInWebhooks_fixedPoint name rule conf.webhooks ws hloop
      simp [addNamespaceSelectorIfNotPresent, hfix]
    | nilSelector => rw [hloop] at h; cases h
    | notFound => rw [hloop] at h; cases h
  · intro conf' update hfix hupd
    simp [PatchMutatingWebhook, retryOnConflict, defaultRetrySteps, retryOnConflictAux,
      patchAttempt, selectWebhookConfFormCandidates, candidatesNames, selectLoop, hfix, hupd]

/-- C1 witness: with a configuration whose target entry already carries
the rule, the mutation step returns it unchanged, and a full second patch
cycle against it succeeds. -/
theorem patchMutation_idempotent_witness :
    addNamespaceSelectorIfNotPresent sampleConfWithRule webhookNameToChange requiredLabelSelector
        = .ok sampleConfWithRule ∧
    PatchMutatingWebhook (.ok ()) (fun _ _ => .ok sampleConfWithRule) (fun _ _ => none) = .ok () := by
  have h1 := patchMutation_idempotent.1 sampleConfWithRule webhookNameToChange requiredLabelSelector
    [] [] sampleWebhookWithRule sampleSelectorWithRule rfl (by simp) rfl rfl (by decide)
  exact ⟨h1, patchMutation_idempotent.2.2 sampleConfWithRule (fun _ => none) h1 rfl⟩

/-- C10 (amended): provided the first entry whose name matches the target
carries a (non-nil) namespace selector, the mutation step scans entries in
order, stops at that first match, at most appends the required rule to
that single entry's match-expression list, and leaves every other entry
and every other field of the configuration unchanged; when no entry
matches, it returns the "could not find webhook" error naming the entry
and the configuration. (The unamended claim fails when the first matching
entry's selector is nil: the step then crashes, see the counterexample.) -/
theorem addNamespaceSelector_frame (conf : MutatingWebhookConfiguration)
    (name : String) (rule : LabelSelectorRequirement) :
    (∀ pre w post sel, conf.webhooks = pre ++ w :: post →
        (∀ u ∈ pre, u.name ≠ name) → w.name = name → w.namespaceSelector = some sel →
        addNamespaceSelectorIfNotPresent conf name rule =
          (if rule ∈ sel.matchExpressions then .ok conf
           else .ok { conf with webhooks := pre ++ ({ w with namespaceSelector := some (appendRule sel rule) } :: post) }))
  ∧ ((∀ u ∈ conf.webhooks, u.name ≠ name) →
        addNamespaceSelectorIfNotPresent conf name rule =
          .err { msg := "could not find webhook " ++ name ++ " in WebhookConfiguration " ++ conf.name,
                 conflict := false }) := by
  constructor
  · intro pre w post sel hconf hpre hw hsel
    have hloop := addNSInWebhooks_firstMatch name rule w sel hw hsel pre post hpre
    by_cases hmem : rule ∈ sel.matchExpressions
    · rw [if_pos hmem] at hloop
      rw [← hconf] at hloop
      simp [addNamespaceSelectorIfNotPresent, hloop, hmem]
    · rw [if_neg hmem] at hloop
      rw [if_neg hmem]
      simp [addNamespaceSelectorIfNotPresent, hconf, hloop]
  · intro hnone
    have hloop := addNSInWebhooks_notFound name rule conf.webhooks hnone
    simp [addNamespaceSelectorIfNotPresent, hloop]

/-- C10 witness: on a configuration whose matching entry has an empty
expression list the step appends exactly the required rule to that entry,
and on a configuration with no matching entry it returns the not-found
error. -/
theorem addNamespaceSelector_frame_witness :
    addNamespaceSelectorIfNotPresent sampleConfNoRule webhookNameToChange requiredLabelSelector
        = .ok { sampleConfNoRule with webhooks :=
            [{ name := "auto.sidecar-injector.istio.io",
               namespaceSelector := some (appendRule sampleSelectorEmpty requiredLabelSelector),
               rest := "p" }] } ∧
    addNamespaceSelectorIfNotPresent sampleConfWithRule "no-such-entry" requiredLabelSelector
        = .err { msg := "could not find webhook no-such-entry in WebhookConfiguration istio-sidecar-injector",
                 conflict := false } := by
  constructor
  · have h := (addNamespaceSelector_frame sampleConfNoRule webhookNameToChange requiredLabelSelector).1
      [] { name := "auto.sidecar-injector.istio.io", namespaceSelector := some sampleSelectorEmpty, rest := "p" }
      [] sampleSelectorEmpty rfl (by simp) rfl rfl
    rw [if_neg (by decide)] at h
    exact h
  · exact (addNamespaceSelector_frame sampleConfWithRule "no-such-entry" requiredLabelSelector).2
      (by decide)

/-- C10 counterexample: a configuration whose first matching entry has a
nil namespace selector makes the mutation step crash with a nil-pointer
dereference instead of appending or reporting the not-found error. -/
theorem addNamespaceSelector_nilSelector_panics :
    addNamespaceSelectorIfNotPresent sampleConfNilSelector webhookNameToChange requiredLabelSelector
      = .panic "runtime error: invalid memory address or nil pointer dereference" := by
  decide

/-- C3: webhook-configuration candidate selection is an ordered
first-success fallback. Candidates are fetched in list order and the
first successfully fetched configuration is returned; when every fetch of
a (non-empty) candidate list fails, a wrapped "could not be selected from
candidates" error carrying the last underlying fetch failure is
returned. -/
theorem selectWebhookConf_orderedFallback
    (get : String → Except GoError MutatingWebhookConfiguration) :
    (∀ pre n post c, (∀ m ∈ pre, ∃ e, get m = .error e) → get n = .ok c →
        selectWebhookConfFormCandidates get (pre ++ n :: post) = .ok (some c))
  ∧ (∀ pre n e, (∀ m ∈ pre, ∃ f, get m = .error f) → get n = .error e →
        selectWebhookConfFormCandidates get (pre ++ [n]) =
          .error (wrapErr e "MutatingWebhookConfigurations could not be selected from candidates")) := by
  constructor
  · intro pre n post c hpre hok
    exact selectLoop_firstSuccess get c pre n post none hpre hok
  · intro pre n e hpre herr
    exact selectLoop_allFail get pre n e none hpre herr

/-- C3 witness: with the real candidate list, a failing primary fetch and
a succeeding secondary fetch select the secondary configuration, and two
failing fetches produce the wrapped error carrying the second failure. -/
theorem selectWebhookConf_orderedFallback_witness :
    selectWebhookConfFormCandidates
        (fun n => if n = "istio-sidecar-injector" then .ok sampleConfWithRule
                  else .error { msg := "webhook not found", conflict := false })
        candidatesNames = .ok (some sampleConfWithRule) ∧
    selectWebhookConfFormCandidates
        (fun n => .error { msg := "cannot get " ++ n, conflict := false })
        candidatesNames =
      .error { msg := "MutatingWebhookConfigurations could not be selected from candidates: cannot get istio-sidecar-injector",
               conflict := false } := by
  constructor
  · exact (selectWebhookConf_orderedFallback _).1 ["istio-revision-tag-default"]
      "istio-sidecar-injector" [] sampleConfWithRule
      (by intro m hm; simp at hm; subst hm; exact ⟨_, rfl⟩) rfl
  · exact (selectWebhookConf_orderedFallback _).2 ["istio-revision-tag-default"]
      "istio-sidecar-injector"
      { msg := "cannot get istio-sidecar-injector", conflict := false }
      (by intro m hm; simp at hm; subst hm; exact ⟨_, rfl⟩) rfl

/-- C6: the webhook patch's read-modify-write cycle is conflict-safe.
Each attempt of the cycle re-runs candidate selection, mutation and write
against the state fetched at that attempt; when every one of the 5
attempts of the retry policy fails with a conflict error, the last
conflict error is returned, and a non-conflict error at any attempt is
returned immediately, whatever later attempts would have produced. -/
theorem patchWebhook_conflictRetry
    (get : Nat → String → Except GoError MutatingWebhookConfiguration)
    (update : Nat → MutatingWebhookConfiguration → Option GoError) :
    (∀ e : Nat → GoError,
        (∀ k, k < defaultRetrySteps →
            patchAttempt (get k) (update k) = .err (e k) ∧ (e k).conflict = true) →
        PatchMutatingWebhook (.ok ()) get update = .err (e 4))
  ∧ (∀ j f, j < defaultRetrySteps → f.conflict = false →
        (∀ k, k < j → ∃ e, patchAttempt (get k) (update k) = .err e ∧ e.conflict = true) →
        patchAttempt (get j) (update j) = .err f →
        PatchMutatingWebhook (.ok ()) get update = .err f) := by
  constructor
  · intro e h
    have hsteps : ∀ i, i < 5 →
        (fun k => patchAttempt (get k) (update k)) (0 + i) = .err (e (0 + i)) ∧ (e (0 + i)).conflict = true := by
      intro i hi
      simpa using h i (by simpa [defaultRetrySteps] using hi)
    have hres := retryAux_allConflict (fun k => patchAttempt (get k) (update k)) e 5 0 none
      (by omega) hsteps
    simpa [PatchMutatingWebhook, retryOnConflict, defaultRetrySteps] using hres
  · intro j f hj hf hconf hjerr
    have hshift : ∀ i, i < j → ∃ e, (fun k => patchAttempt (get k) (update k)) (0 + i) = .err e ∧ e.conflict = true := by
      intro i hi
      simpa using hconf i hi
    have hjerr' : (fun k => patchAttempt (get k) (update k)) (0 + j) = .err f := by simpa using hjerr
    have hres := retryAux_nonConflict (fun k => patchAttempt (get k) (update k)) f hf j 5 0 none
      (by simpa [defaultRetrySteps] using hj) hshift hjerr'
    simpa [PatchMutatingWebhook, retryOnConflict, defaultRetrySteps] using hres

/-- C6 witness: an update that is rejected with a conflict at every
attempt makes the patch return that conflict error after the bounded
retries, and an immediately non-conflict-failing update makes the patch
return its error at once. -/
theorem patchWebhook_conflictRetry_witness :
    PatchMutatingWebhook (.ok ()) (fun _ _ => .ok sampleConfWithRule)
        (fun _ _ => some { msg := "the object has been modified", conflict := true })
      = .err { msg := "the object has been modified", conflict := true } ∧
    PatchMutatingWebhook (.ok ()) (fun _ _ => .ok sampleConfWithRule)
        (fun _ _ => some { msg := "forbidden", conflict := false })
      = .err { msg := "forbidden", conflict := false } := by
  constructor
  · exact (patchWebhook_conflictRetry _ _).1
      (fun _ => { msg := "the object has been modified", conflict := true })
      (fun k _ => ⟨rfl, rfl⟩)
  · exact (patchWebhook_conflictRetry _ _).2 0
      { msg := "forbidden", conflict := false } (by decide) rfl
      (fun k hk => absurd hk (by omega)) (by decide)

/-- Sample helm values carrying the nested pilot version `1.2.3`. -/
def sampleValuesWithPilot : JSONValue :=
  .obj [("global", .obj [("images", .obj [("istio_pilot", .obj [("version", .str "1.2.3")])])])]

/-- C2: chart target-version resolution obeys two-source precedence. Once
the workspace and the chart load, a non-empty nested
`global.images.istio_pilot.version` value wins regardless of the
top-level `AppVersion`; an empty nested value falls back to a non-empty
`AppVersion`; and when both are empty, resolution fails with the error
stating that neither source yielded a version. -/
theorem chartVersion_twoSource_precedence
    (wsGet : String → Except GoError Workspace)
    (load : String → Except GoError HelmChart)
    (branch chartName : String) (ws : Workspace) (c : HelmChart) (pv : String)
    (hws : wsGet branch = .ok ws)
    (hload : load (ws.resourceDir ++ "/" ++ chartName) = .ok c)
    (hpv : getTargetVersionFromPilotInChartValues c = .ok pv) :
    (pv ≠ "" → getTargetVersionFromIstioChart wsGet load branch chartName = .ok pv)
  ∧ (pv = "" → c.metadata.appVersion ≠ "" →
        getTargetVersionFromIstioChart wsGet load branch chartName = .ok c.metadata.appVersion)
  ∧ (pv = "" → c.metadata.appVersion = "" →
        getTargetVersionFromIstioChart wsGet load branch chartName =
          .error { msg := "Target Istio version could not be found neither in Chart.yaml nor in helm values",
                   conflict := false }) := by
  refine ⟨?_, ?_, ?_⟩
  · intro hne
    simp [getTargetVersionFromIstioChart, hws, hload, hpv, hne]
  · intro heq hne
    simp [getTargetVersionFromIstioChart, hws, hload, hpv, heq,
      getTargetVersionFromAppVersionInChartDefinition, hne]
  · intro heq heq'
    simp [getTargetVersionFromIstioChart, hws, hload, hpv, heq,
      getTargetVersionFromAppVersionInChartDefinition, heq']

/-- C2 witness: a chart carrying both the nested values version `1.2.3`
and `AppVersion` `9.9.9` resolves to `1.2.3`; a chart with only
`AppVersion` `1.0.0` resolves to `1.0.0`; a chart with neither fails with
the two-source error. -/
theorem chartVersion_twoSource_precedence_witness :
    getTargetVersionFromIstioChart (fun _ => .ok { resourceDir := "/resources" })
        (fun _ => .ok { metadata := { appVersion := "9.9.9" }, values := sampleValuesWithPilot })
        "main" "istio" = .ok "1.2.3" ∧
    getTargetVersionFromIstioChart (fun _ => .ok { resourceDir := "/resources" })
        (fun _ => .ok { metadata := { appVersion := "1.0.0" }, values := .obj [] })
        "main" "istio" = .ok "1.0.0" ∧
    getTargetVersionFromIstioChart (fun _ => .ok { resourceDir := "/resources" })
        (fun _ => .ok { metadata := { appVersion := "" }, values := .obj [] })
        "main" "istio" =
      .error { msg := "Target Istio version could not be found neither in Chart.yaml nor in helm values",
               conflict := false } := by
  refine ⟨?_, ?_, ?_⟩
  · exact (chartVersion_twoSource_precedence _ _ "main" "istio" { resourceDir := "/resources" }
      { metadata := { appVersion := "9.9.9" }, values := sampleValuesWithPilot } "1.2.3"
      rfl rfl rfl).1 (by decide)
  · exact (chartVersion_twoSource_precedence _ _ "main" "istio" { resourceDir := "/resources" }
      { metadata := { appVersion := "1.0.0" }, values := .obj [] } ""
      rfl rfl rfl).2.1 rfl (by decide)
  · exact (chartVersion_twoSource_precedence _ _ "main" "istio" { resourceDir := "/resources" }
      { metadata := { appVersion := "" }, values := .obj [] } ""
      rfl rfl rfl).2.2 rfl rfl

/-- C4 (amended): the three version fields are extracted independently;
the control-plane (pilot) and data-plane fields each default to the empty
string when their list is absent or empty, and the client field yields
the client version when the `clientVersion` object is present. (The
unamended claim fails for an absent `clientVersion` object: extraction
then dereferences a nil pointer, see the counterexample.) -/
theorem versionFields_extraction_defaults (j1 j2 j3 : IstioVersionOutput) (cv : ClientVersion)
    (h1 : j1.clientVersion = some cv) (h2 : j2.meshVersion = []) (h3 : j3.dataPlaneVersion = []) :
    getVersionFromJSON "client" j1 = some cv.version ∧
    getVersionFromJSON "pilot" j2 = some "" ∧
    getVersionFromJSON "dataPlane" j3 = some "" := by
  refine ⟨?_, ?_, ?_⟩
  · simp [getVersionFromJSON, h1]
  · simp [getVersionFromJSON, h2]
  · simp [getVersionFromJSON, h3]

/-- C4 witness: on an output whose client version is `1.11.0` and whose
mesh and data-plane lists are empty, extraction yields `1.11.0` for the
client and the empty string for the other two fields. -/
theorem versionFields_extraction_defaults_witness :
    getVersionFromJSON "client"
        { clientVersion := some { version := "1.11.0" }, meshVersion := [], dataPlaneVersion := [] }
        = some "1.11.0" ∧
    getVersionFromJSON "pilot"
        { clientVersion := some { version := "1.11.0" }, meshVersion := [], dataPlaneVersion := [] }
        = some "" ∧
    getVersionFromJSON "dataPlane"
        { clientVersion := some { version := "1.11.0" }, meshVersion := [], dataPlaneVersion := [] }
        = some "" := by
  exact versionFields_extraction_defaults _ _ _ { version := "1.11.0" } rfl rfl rfl

/-- C4 counterexample: version output without a `clientVersion` object
(the decode of the JSON text `\x7b\x7d`) makes the mapper crash with a
nil-pointer dereference instead of defaulting the client field to the
empty string. -/
theorem clientVersion_absence_panics :
    mapVersionToStruct
        (fun _ => .ok { clientVersion := none, meshVersion := [], dataPlaneVersion := [] })
        "\x7b\x7d".toList "1.17.0"
      = .panic "runtime error: invalid memory address or nil pointer dereference" := by
  decide

/-- C5 (amended): the mapper rejects empty raw output with the explicit
"result of the version command is empty" error; when the output contains
a `\x7b` it discards everything before the first one and hands exactly
the remainder to the JSON decoder, propagating a decode failure as an
error. (The unamended claim fails for non-empty output containing no
`\x7b` at all: the trimming reslice then crashes, see the
counterexample.) -/
theorem mapVersionToStruct_trim_and_error
    (unmarshal : List Char → GoResult IstioVersionOutput)
    (versionOutput : List Char) (targetVersion : String) :
    (versionOutput = [] →
        mapVersionToStruct unmarshal versionOutput targetVersion =
          .err { msg := "the result of the version command is empty", conflict := false })
  ∧ (∀ i e, indexOfBrace versionOutput = some i →
        unmarshal (versionOutput.drop i) = .err e →
        mapVersionToStruct unmarshal versionOutput targetVersion = .err e) := by
  constructor
  · intro h
    subst h
    rfl
  · intro i e hidx hun
    cases versionOutput with
    | nil => simp [indexOfBrace] at hidx
    | cons a l =>
      simp [mapVersionToStruct, hidx, hun]

/-- C5 witness: empty raw output yields the explicit emptiness error, and
banner-prefixed output whose post-brace remainder fails to decode yields
exactly the decoder's error. -/
theorem mapVersionToStruct_trim_and_error_witness :
    mapVersionToStruct (fun _ => .ok { clientVersion := none, meshVersion := [], dataPlaneVersion := [] })
        [] "1.17.0" = .err { msg := "the result of the version command is empty", conflict := false } ∧
    mapVersionToStruct (fun _ => .err { msg := "invalid character", conflict := false })
        "banner\x7bbad".toList "1.17.0" = .err { msg := "invalid character", conflict := false } := by
  constructor
  · exact (mapVersionToStruct_trim_and_error _ [] "1.17.0").1 rfl
  · exact (mapVersionToStruct_trim_and_error _ "banner\x7bbad".toList "1.17.0").2 6
      { msg := "invalid character", conflict := false } (by decide) rfl

/-- C5 counterexample: non-empty raw output containing no `\x7b` makes
the mapper crash with a slice-bounds panic (the Go code reslices with the
-1 returned by `bytes.IndexRune`) instead of returning a non-nil error. -/
theorem mapVersionToStruct_noBrace_panics :
    mapVersionToStruct (fun _ => .err { msg := "unreachable", conflict := false })
        "garbage-banner".toList "1.17.0"
      = .panic "runtime error: slice bounds out of range" := by
  decide

/-- C7: Uninstall succeeds only when both the commander's uninstall call
and the deletion of the `istio-system` namespace (with foreground
propagation) succeed; when the commander's uninstall succeeds but the
namespace deletion fails, Uninstall returns the deletion error. -/
theorem uninstall_requires_namespace_deletion (c : DefaultIstioPerformer)
    (ks : KubeClient) (version : String) :
    (∀ v cmd cs e, c.versionFromString version = .ok v → c.getCommander v = .ok cmd →
        cmd.uninstall ks.kubeconfig = none → ks.clientset = .ok cs →
        cs.deleteNamespace "istio-system" "Foreground" = some e →
        Uninstall c ks version = .error e)
  ∧ (Uninstall c ks version = .ok () →
        ∃ v cmd cs, c.versionFromString version = .ok v ∧ c.getCommander v = .ok cmd ∧
          cmd.uninstall ks.kubeconfig = none ∧ ks.clientset = .ok cs ∧
          cs.deleteNamespace "istio-system" "Foreground" = none) := by
  constructor
  · intro v cmd cs e hv hcmd hun hcs hdel
    simp [Uninstall, hv, hcmd, hun, hcs, hdel]
  · intro h
    unfold Uninstall at h
    cases hv : c.versionFromString version with
    | error e => simp [hv] at h
    | ok v =>
      simp only [hv] at h
      cases hcmd : c.getCommander v with
      | error e => simp [hcmd] at h
      | ok cmd =>
        simp only [hcmd] at h
        cases hun : cmd.uninstall ks.kubeconfig with
        | some e => simp [hun] at h
        | none =>
          simp only [hun] at h
          cases hcs : ks.clientset with
          | error e => simp [hcs] at h
          | ok cs =>
            simp only [hcs] at h
            cases hdel : cs.deleteNamespace "istio-system" "Foreground" with
            | some e => simp [hdel] at h
            | none => exact ⟨v, cmd, cs, rfl, hcmd, hun, rfl, hdel⟩

/-- Sample performer whose collaborators all succeed except the ones a
witness overrides. -/
def samplePerformer : DefaultIstioPerformer :=
  { versionFromString := fun s => .ok { raw := s },
    getCommander := fun _ => .ok { install := fun _ _ => none, uninstall := fun _ => none },
    extractIstioOperator := fun _ => .ok "operator-manifest",
    istioProxyResetRun := fun _ => none,
    retrieveFrom := fun _ => .ok "kube-client-handle" }

/-- C7 witness: with a succeeding commander uninstall and a namespace
deletion failing with a timeout error, Uninstall returns that error. -/
theorem uninstall_requires_namespace_deletion_witness :
    Uninstall samplePerformer
        { kubeconfig := "kcfg",
          clientset := .ok { deleteNamespace := fun _ _ => some { msg := "namespace deletion timed out", conflict := false } } }
        "1.11.4"
      = .error { msg := "namespace deletion timed out", conflict := false } := by
  exact (uninstall_requires_namespace_deletion samplePerformer _ "1.11.4").1
    { raw := "1.11.4" } { install := fun _ _ => none, uninstall := fun _ => none }
    { deleteNamespace := fun _ _ => some { msg := "namespace deletion timed out", conflict := false } }
    { msg := "namespace deletion timed out", conflict := false } rfl rfl rfl rfl rfl

/-- C8: Install aborts before any mutating call when an early step fails.
A version-parse failure returns the wrapped parse error, a manifest
extraction failure returns that error, and a commander-resolution failure
returns that error — in every case with an empty list of performed
istioctl invocations, so no cluster mutation is attempted. -/
theorem install_aborts_on_early_failure (c : DefaultIstioPerformer)
    (kubeConfig istioChart version : String) :
    (∀ e, c.versionFromString version = .error e →
        Install c kubeConfig istioChart version = (.error (wrapErr e "Error parsing version"), []))
  ∧ (∀ v e, c.versionFromString version = .ok v → c.extractIstioOperator istioChart = .error e →
        Install c kubeConfig istioChart version = (.error e, []))
  ∧ (∀ v m e, c.versionFromString version = .ok v → c.extractIstioOperator istioChart = .ok m →
        c.getCommander v = .error e →
        Install c kubeConfig istioChart version = (.error e, [])) := by
  refine ⟨?_, ?_, ?_⟩
  · intro e hv
    simp [Install, hv]
  · intro v e hv hm
    simp [Install, hv, hm]
  · intro v m e hv hm hcmd
    simp [Install, hv, hm, hcmd]

/-- C8 witness: a performer whose version parser rejects the input makes
Install return the wrapped parse error with no istioctl invocation
performed. -/
theorem install_aborts_on_early_failure_witness :
    Install
        { samplePerformer with
            versionFromString := fun _ => .error { msg := "invalid semantic version", conflict := false } }
        "kcfg" "istio-chart" "not-a-version"
      = (.error { msg := "Error parsing version: invalid semantic version", conflict := false }, []) := by
  exact (install_aborts_on_early_failure _ "kcfg" "istio-chart" "not-a-version").1
    { msg := "invalid semantic version", conflict := false } rfl

/-- C9: ResetProxy hands the proxy-reset collaborator a config built from
the fixed image prefix `istio/proxyv2`, the caller's tag with the
`-distroless` suffix appended, and the fixed defaults (5 retries,
5-second delay, 5-minute timeout, 12-second interval); a collaborator
failure is returned wrapped as an "Istio proxy reset error". -/
theorem resetProxy_fixed_config (c : DefaultIstioPerformer)
    (kubeConfig proxyImageVersion kubeClient : String)
    (hret : c.retrieveFrom kubeConfig = .ok kubeClient) :
    (c.istioProxyResetRun ⟨istioImagePrefix, proxyImageVersion ++ "-distroless",
          retriesCount, delayBetweenRetries, timeout, interval, kubeClient, false⟩ = none →
        ResetProxy c kubeConfig proxyImageVersion = .ok ())
  ∧ (∀ e, c.istioProxyResetRun ⟨istioImagePrefix, proxyImageVersion ++ "-distroless",
          retriesCount, delayBetweenRetries, timeout, interval, kubeClient, false⟩ = some e →
        ResetProxy c kubeConfig proxyImageVersion = .error (wrapErr e "Istio proxy reset error")) := by
  constructor
  · intro hrun
    simp only [ResetProxy, hret]
    rw [hrun]
  · intro e hrun
    simp only [ResetProxy, hret]
    rw [hrun]

/-- C9 witness: with tag `1.11.4` the collaborator receives image version
`1.11.4-distroless` with the fixed prefix and defaults; a failing reset
run is wrapped. -/
theorem resetProxy_fixed_config_witness :
    ResetProxy samplePerformer "kcfg" "1.11.4" = .ok () ∧
    ResetProxy
        { samplePerformer with
            istioProxyResetRun := fun cfg =>
              if cfg = ⟨"istio/proxyv2", "1.11.4-distroless", 5, 5, 300, 12, "kube-client-handle", false⟩
              then some { msg := "pod restart failed", conflict := false }
              else none }
        "kcfg" "1.11.4"
      = .error { msg := "Istio proxy reset error: pod restart failed", conflict := false } := by
  constructor
  · exact (resetProxy_fixed_config samplePerformer "kcfg" "1.11.4" "kube-client-handle" rfl).1 rfl
  · exact (resetProxy_fixed_config
      { samplePerformer with
          istioProxyResetRun := fun cfg =>
            if cfg = ⟨"istio/proxyv2", "1.11.4-distroless", 5, 5, 300, 12, "kube-client-handle", false⟩
            then some { msg := "pod restart failed", conflict := false }
            else none }
      "kcfg" "1.11.4" "kube-client-handle" rfl).2
      { msg := "pod restart failed", conflict := false } (by decide)
